import Mathlib

/-!
Verification development for the `http-logger` repository
(`internal/logger/logger.go`).  The Go code is shallowly embedded:
pure functions become Lean functions, the shared mutable logger state
becomes an explicit `LoggerState` record threaded through the
operations, durations are nanosecond counts (`Nat`, the unit of the
Go type `time.Duration`), and the float64 rate arithmetic is modelled
exactly over `ℚ`.
-/

set_option maxRecDepth 4000

namespace HttpLogger

/-! ### Characters and character classes

The double-quote and single-quote characters are spelled via their
code points throughout, to keep literals unambiguous. -/

def dqChar : Char := Char.ofNat 34

def dqs : String := (Char.ofNat 34).toString

def sqs : String := (Char.ofNat 39).toString

/-- RE2 `\S` (complement of the Perl space class `[\t\n\f\r ]`),
used for the `client-id`, `user-identifier` and `user-id` tokens. -/
def reNonSpace (c : Char) : Bool :=
  !(c = ' ' || c = Char.ofNat 9 || c = Char.ofNat 10 ||
    c = Char.ofNat 12 || c = Char.ofNat 13)

/-- The class `[^/ "]` from the section capture group. -/
def segChar (c : Char) : Bool :=
  !(c = '/' || c = ' ' || c = dqChar)

/-- The class `[^ "]` that extends the resource past the section. -/
def extChar (c : Char) : Bool :=
  !(c = ' ' || c = dqChar)

/-- The class `[0-9.]` of the HTTP version. -/
def verChar (c : Char) : Bool :=
  c.isDigit || c = '.'

/-- Whitespace trimmed by `bytes.TrimSpace` (Go `unicode.IsSpace`,
restricted to the Latin-1 range). -/
def goIsSpace (c : Char) : Bool :=
  c = ' ' || (Char.ofNat 9 ≤ c && c ≤ Char.ofNat 13) ||
  c = Char.ofNat 133 || c = Char.ofNat 160

def goTrimSpace (s : String) : String :=
  String.mk (((s.data.dropWhile goIsSpace).reverse.dropWhile goIsSpace).reverse)

/-! ### Matching the Common Log Format pattern

`commonLogFormatPattern` (logger.go lines 71-78) is anchored at the
start and each repeated character class excludes the character the
pattern requires next (`\S+` is always followed by a space, `[^\]]+`
by `]`, `[A-Z]+` by a space, `[0-9.]+` by a quote, `[^ "]*` by a
space), so Perl-style leftmost-first matching is deterministic: every
repetition takes its maximal run and no backtracking can recover from
a failure.  The embedding below is that deterministic reading. -/

/-- Consume one expected literal character. -/
def expectChar (c : Char) : List Char → Option (List Char)
  | [] => none
  | x :: rest => if x = c then some rest else none

/-- Consume an expected literal character sequence. -/
def expectChars : List Char → List Char → Option (List Char)
  | [], cs => some cs
  | e :: es, cs =>
    match expectChar e cs with
    | none => none
    | some cs2 => expectChars es cs2

/-- Consume a maximal nonempty run of characters satisfying `p`
(the deterministic reading of a greedy `X+`). -/
def takeSome (p : Char → Bool) (cs : List Char) : Option (List Char × List Char) :=
  let pre := cs.takeWhile p
  if pre.isEmpty then none else some (pre, cs.dropWhile p)

/-- The optional resource group `((/?[^/ "]+)[^ "]*)?`.
Returns `((section, resource), rest)`; when the group cannot match,
both captures are empty and no input is consumed (the Go function
`FindStringSubmatch` reports unmatched groups as empty strings).
When the head is `/` but no `[^/ "]` character follows, the greedy
`/?` backtracks to empty and `[^/ "]+` still fails on the `/`, so the
whole group is skipped. -/
def resourceGroup (cs : List Char) : (List Char × List Char) × List Char :=
  match cs with
  | [] => (([], []), [])
  | c :: cs1 =>
    if c = '/' then
      let seg := cs1.takeWhile segChar
      if seg.isEmpty then (([], []), c :: cs1)
      else
        let afterSeg := cs1.dropWhile segChar
        let ext := afterSeg.takeWhile extChar
        (('/' :: seg, '/' :: seg ++ ext), afterSeg.dropWhile extChar)
    else
      let seg := (c :: cs1).takeWhile segChar
      if seg.isEmpty then (([], []), c :: cs1)
      else
        let afterSeg := (c :: cs1).dropWhile segChar
        let ext := afterSeg.takeWhile extChar
        ((seg, seg ++ ext), afterSeg.dropWhile extChar)

/-- The message-size alternation `([0-9]+|-)`: a maximal digit run,
or a single dash when the head is not a digit. -/
def sizeField : List Char → Option (List Char × List Char)
  | [] => none
  | c :: rest =>
    if c.isDigit then some ((c :: rest).takeWhile Char.isDigit, (c :: rest).dropWhile Char.isDigit)
    else if c = '-' then some ([c], rest)
    else none

/-- Exactly `n` digits (`[0-9]{n}`). -/
def fixedDigits : Nat → List Char → Option (List Char × List Char)
  | 0, cs => some ([], cs)
  | _ + 1, [] => none
  | n + 1, c :: cs =>
    if c.isDigit then
      match fixedDigits n cs with
      | none => none
      | some (ds, rest) => some (c :: ds, rest)
    else none

/-- The capture groups of `commonLogFormatRegexp`, as raw strings
(the indices used by `parseLineEntry`: `matches[1]` client IP,
`matches[2]` user id, `matches[3]` timestamp, `matches[4]` method,
`matches[5]` resource, `matches[6]` section, `matches[7]` status,
`matches[8]` size). -/
structure CLFMatches where
  clientIP : String
  userID : String
  timestamp : String
  method : String
  resource : String
  sectionMatch : String
  status : String
  size : String
  deriving Repr, DecidableEq

/-- The tail of the pattern after the resource group:
` HTTP/[0-9.]+" ([0-9]{3}) ([0-9]+|-)`. -/
def clfTail (r : List Char) : Option (List Char × List Char) :=
  match expectChar ' ' r with
  | none => none
  | some r =>
  match expectChars ['H', 'T', 'T', 'P', '/'] r with
  | none => none
  | some r =>
  match takeSome verChar r with
  | none => none
  | some (_ver, r) =>
  match expectChar dqChar r with
  | none => none
  | some r =>
  match expectChar ' ' r with
  | none => none
  | some r =>
  match fixedDigits 3 r with
  | none => none
  | some (status, r) =>
  match expectChar ' ' r with
  | none => none
  | some r =>
  match sizeField r with
  | none => none
  | some (size, _) => some (status, size)

/-- The head of the pattern through the method:
`^(\S+) \S+ (\S+) \[([^\]]+)\] "([A-Z]+) `. -/
def clfHead (cs : List Char) : Option ((List Char × List Char × List Char × List Char) × List Char) :=
  match takeSome reNonSpace cs with
  | none => none
  | some (clientIP, r) =>
  match expectChar ' ' r with
  | none => none
  | some r =>
  match takeSome reNonSpace r with
  | none => none
  | some (_userIdent, r) =>
  match expectChar ' ' r with
  | none => none
  | some r =>
  match takeSome reNonSpace r with
  | none => none
  | some (userID, r) =>
  match expectChar ' ' r with
  | none => none
  | some r =>
  match expectChar '[' r with
  | none => none
  | some r =>
  match takeSome (fun c => !(c = ']')) r with
  | none => none
  | some (ts, r) =>
  match expectChar ']' r with
  | none => none
  | some r =>
  match expectChar ' ' r with
  | none => none
  | some r =>
  match expectChar dqChar r with
  | none => none
  | some r =>
  match takeSome Char.isUpper r with
  | none => none
  | some (method, r) =>
  match expectChar ' ' r with
  | none => none
  | some r => some ((clientIP, userID, ts, method), r)

def clfMatchAux (cs : List Char) : Option CLFMatches :=
  match clfHead cs with
  | none => none
  | some ((clientIP, userID, ts, method), r) =>
  match resourceGroup r with
  | ((sec, res), r) =>
  match clfTail r with
  | none => none
  | some (status, size) =>
    some { clientIP := String.mk clientIP, userID := String.mk userID,
           timestamp := String.mk ts, method := String.mk method,
           resource := String.mk res, sectionMatch := String.mk sec,
           status := String.mk status, size := String.mk size }

/-- Model of `commonLogFormatRegexp.FindStringSubmatch line`, as the
record of capture groups, or `none` when the pattern does not match. -/
def clfMatch (line : String) : Option CLFMatches :=
  clfMatchAux line.data

/-! ### Model of Go `strconv.Atoi` -/

def digitVal (c : Char) : Nat := c.toNat - 48

def digitsToNat (ds : List Char) : Nat :=
  ds.foldl (fun acc c => acc * 10 + digitVal c) 0

/-- Model of Go `strconv.Atoi`: an optional sign followed by at least
one digit, rejected outside the `int64` range.  The error strings are
the ones `strconv` produces. -/
def goAtoi (s : String) : Except String Int :=
  let invalid : Except String Int :=
    .error ("strconv.Atoi: parsing " ++ dqs ++ s ++ dqs ++ ": invalid syntax")
  match s.data with
  | [] => invalid
  | c :: rest =>
    let (neg, digits) :=
      if c = '-' then (true, rest)
      else if c = '+' then (false, rest)
      else (false, c :: rest)
    if digits.isEmpty || !(digits.all Char.isDigit) then invalid
    else
      let n : Int := (digitsToNat digits : Int)
      let v : Int := if neg then -n else n
      if v < -(2 ^ 63) || 2 ^ 63 - 1 < v then
        .error ("strconv.Atoi: parsing " ++ dqs ++ s ++ dqs ++ ": value out of range")
      else .ok v

/-! ### Model of Go `time.Parse` for the layout `02/Jan/2006:15:04:05 -0700`

Only the acceptance behaviour matters for the claims; the error
strings keep the shape `parsing time "<value>" ...` of the Go
`ParseError`, in particular a sub-field error names the timestamp
text, never the whole log line. -/

structure GoTime where
  year : Nat
  month : Nat
  day : Nat
  hour : Nat
  minute : Nat
  second : Nat
  zoneMinus : Bool
  zoneHH : Nat
  zoneMM : Nat
  deriving Repr, DecidableEq

def take2Digits : List Char → Option (Nat × List Char)
  | a :: b :: r => if a.isDigit && b.isDigit then some (digitVal a * 10 + digitVal b, r) else none
  | _ => none

def take4Digits : List Char → Option (Nat × List Char)
  | a :: b :: c :: d :: r =>
    if a.isDigit && b.isDigit && c.isDigit && d.isDigit then
      some (((digitVal a * 10 + digitVal b) * 10 + digitVal c) * 10 + digitVal d, r)
    else none
  | _ => none

/-- Layout element `15`: one or two digits. -/
def take1or2Digits : List Char → Option (Nat × List Char)
  | [] => none
  | a :: r =>
    if a.isDigit then
      match r with
      | b :: r2 => if b.isDigit then some (digitVal a * 10 + digitVal b, r2) else some (digitVal a, r)
      | [] => some (digitVal a, [])
    else none

def lowerChar (c : Char) : Char :=
  if 'A' ≤ c && c ≤ 'Z' then Char.ofNat (c.toNat + 32) else c

def monthNames : List String :=
  ["Jan", "Feb", "Mar", "Apr", "May", "Jun", "Jul", "Aug", "Sep", "Oct", "Nov", "Dec"]

/-- Case-insensitive three-letter month lookup (1-based), as in
the `lookup` of package `time` over `shortMonthNames`. -/
def monthLookup (a b c : Char) : Option Nat :=
  let key := [lowerChar a, lowerChar b, lowerChar c]
  (monthNames.findIdx? (fun n => n.data.map lowerChar = key)).map (· + 1)

def isLeapYear (y : Nat) : Bool :=
  y % 4 = 0 && (y % 100 ≠ 0 || y % 400 = 0)

def daysIn (month year : Nat) : Nat :=
  if month = 2 then (if isLeapYear year then 29 else 28)
  else if month = 4 || month = 6 || month = 9 || month = 11 then 30
  else 31

def timeSyntaxErr (value : String) : String :=
  "parsing time " ++ dqs ++ value ++ dqs ++
    " as " ++ dqs ++ "02/Jan/2006:15:04:05 -0700" ++ dqs ++ ": cannot parse"

def timeRangeErr (value what : String) : String :=
  "parsing time " ++ dqs ++ value ++ dqs ++ ": " ++ what ++ " out of range"

def parseCLFTime (value : String) : Except String GoTime :=
  let bad : Except String GoTime := .error (timeSyntaxErr value)
  match take2Digits value.data with
  | none => bad
  | some (day, r) =>
    match expectChar '/' r with
    | none => bad
    | some r =>
      match r with
      | a :: b :: c :: r =>
        match monthLookup a b c with
        | none => bad
        | some month =>
          match expectChar '/' r with
          | none => bad
          | some r =>
            match take4Digits r with
            | none => bad
            | some (year, r) =>
              match expectChar ':' r with
              | none => bad
              | some r =>
                match take1or2Digits r with
                | none => bad
                | some (hour, r) =>
                  match expectChar ':' r with
                  | none => bad
                  | some r =>
                    match take2Digits r with
                    | none => bad
                    | some (minute, r) =>
                      match expectChar ':' r with
                      | none => bad
                      | some r =>
                        match take2Digits r with
                        | none => bad
                        | some (second, r) =>
                          match expectChar ' ' r with
                          | none => bad
                          | some r =>
                            match r with
                            | sgn :: r =>
                              if sgn = '+' || sgn = '-' then
                                match take2Digits r with
                                | none => bad
                                | some (zh, r) =>
                                  match take2Digits r with
                                  | none => bad
                                  | some (zm, r) =>
                                    if !r.isEmpty then
                                      .error ("parsing time " ++ dqs ++ value ++ dqs ++ ": extra text")
                                    else if 24 ≤ hour then .error (timeRangeErr value "hour")
                                    else if 60 ≤ minute then .error (timeRangeErr value "minute")
                                    else if 60 ≤ second then .error (timeRangeErr value "second")
                                    else if day < 1 || daysIn month year < day then
                                      .error (timeRangeErr value "day")
                                    else
                                      .ok { year := year, month := month, day := day,
                                            hour := hour, minute := minute, second := second,
                                            zoneMinus := sgn = '-', zoneHH := zh, zoneMM := zm }
                              else bad
                            | [] => bad
      | _ => bad

/-! ### `parseLineEntry` (logger.go lines 201-234) -/

/-- The `commonLogEntry` record. -/
structure CommonLogEntry where
  ClientIP : String
  UserID : String
  Time : GoTime
  Method : String
  Section : String
  Resource : String
  Status : Int
  Size : Int
  deriving Repr, DecidableEq

/-- Model of `parseLineEntry`: match the pattern (a failed match reports the
offending line), then parse the timestamp, status and size
sub-fields, any of which may fail with its own library error. -/
def parseLineEntry (line : String) : Except String CommonLogEntry :=
  match clfMatch line with
  | none => .error ("could not parse line " ++ sqs ++ line ++ sqs)
  | some m =>
    match parseCLFTime m.timestamp with
    | .error e => .error e
    | .ok t =>
      match goAtoi m.status with
      | .error e => .error e
      | .ok status =>
        match goAtoi m.size with
        | .error e => .error e
        | .ok size =>
          .ok { ClientIP := m.clientIP, UserID := m.userID, Time := t,
                Method := m.method, Section := m.sectionMatch,
                Resource := m.resource, Status := status, Size := size }

/-! ### Logger state (struct `logger`, logger.go lines 95-101) -/

/-- The shared mutable fields of the `logger` struct: the
`sectionHits` map (modelled as an association list; Go map iteration
order is arbitrary, and every theorem below holds for every order),
the running `totalTraffic` count and the `isHighTrafficTriggered`
flag. -/
structure LoggerState where
  sectionHits : List (String × Nat)
  totalTraffic : Nat
  isHighTrafficTriggered : Bool
  deriving Repr, DecidableEq

def initialState : LoggerState :=
  { sectionHits := [], totalTraffic := 0, isHighTrafficTriggered := false }

/-- The increment `logger.sectionHits[key]++` on the association-list
model of the Go map. -/
def bumpSection (m : List (String × Nat)) (key : String) : List (String × Nat) :=
  match m with
  | [] => [(key, 1)]
  | (k, v) :: rest => if k = key then (k, v + 1) :: rest else (k, v) :: bumpSection rest key

/-! ### The ingestion step of `Run` (logger.go lines 49-68) -/

/-- Result of processing one input line in the loop of `Run`.  The
`crashed` constructor models the nil-pointer dereference on line 66:
when `parseLineEntry` fails it returns `entry = nil` (line 204), but
the loop has no `continue` on the error branch, so after printing the
warning it still executes `logger.totalTraffic++` (line 64) and then
evaluates `entry.Section` (line 66), which panics.  The carried state
and output are those produced before the panic. -/
inductive IngestOutcome
  | next (st : LoggerState) (out : List String)
  | crashed (st : LoggerState) (out : List String)
  deriving Repr, DecidableEq

def outputOf : IngestOutcome → List String
  | .next _ out => out
  | .crashed _ out => out

/-- One iteration of the read loop of `Run` on an already-read line:
trim it, parse it, on error print `WARNING: <err>\n` and fall through
to the counter update with the nil entry; on success increment
`totalTraffic` and the hit count of the section. -/
def ingestLine (st : LoggerState) (rawLine : String) : IngestOutcome :=
  let line := goTrimSpace rawLine
  match parseLineEntry line with
  | .error e =>
    .crashed { st with totalTraffic := st.totalTraffic + 1 }
      ["WARNING: " ++ e ++ "\n"]
  | .ok entry =>
    .next { st with totalTraffic := st.totalTraffic + 1,
                    sectionHits := bumpSection st.sectionHits entry.Section }
      []

/-! ### Rate formatting

`%0.2f` on the exact rational value of the float expression
`float64(n) * float64(time.Second) / float64(interval)`: round to
hundredths (ties to even, as float-to-decimal formatting does) and
print with two digits after the point. -/

def nsPerSecond : Nat := 1000000000

def pad2 (n : Nat) : String :=
  if n < 10 then "0" ++ toString n else toString n

def fmt2 (q : ℚ) : String :=
  let a : Nat := q.num.natAbs * 100
  let b : Nat := q.den
  let whole := a / b
  let rem := a % b
  let h :=
    if b < 2 * rem then whole + 1
    else if 2 * rem < b then whole
    else if whole % 2 = 0 then whole else whole + 1
  (if q.num < 0 then "-" else "") ++ toString (h / 100) ++ "." ++ pad2 (h % 100)

/-- The rate `float64(n) * float64(time.Second) / float64(intervalNs)`,
as an exact rational (`mkRat` so that it evaluates by kernel
reduction; `hitsPerSecond_eq_div` states the usual division form). -/
def hitsPerSecond (n intervalNs : Nat) : ℚ :=
  mkRat ((n : Int) * (nsPerSecond : Int)) intervalNs

theorem hitsPerSecond_eq_div (n ivl : Nat) :
    hitsPerSecond n ivl = (n : ℚ) * (nsPerSecond : ℚ) / (ivl : ℚ) := by
  unfold hitsPerSecond
  rw [Rat.mkRat_eq_div]
  push_cast
  ring

/-! ### `printUpdate` (logger.go lines 131-164) -/

/-- The body of the `for section, hits := range oldSectionHits` loop
of `printUpdate`: reset the collected list whenever a strictly larger
count appears, then append the section whenever its count equals the
current maximum. -/
def busiestStep (acc : Nat × List String) (p : String × Nat) : Nat × List String :=
  let acc2 := if p.2 > acc.1 then (p.2, ([] : List String)) else acc
  if acc2.1 = p.2 then (acc2.1, acc2.2 ++ [p.1]) else acc2

/-- The `maxHits`/`activeSections` computation of `printUpdate`. -/
def busiestFold (l : List (String × Nat)) : Nat × List String :=
  l.foldl busiestStep (0, [])

/-- Lexicographic comparison of character sequences by code point.
Go compares strings byte-wise, and UTF-8 byte order agrees with code
point order, so this is the Go string order. -/
def lexLeChars : List Char → List Char → Bool
  | [], _ => true
  | _ :: _, [] => false
  | a :: as, b :: bs =>
    if a.toNat = b.toNat then lexLeChars as bs
    else decide (a.toNat < b.toNat)

/-- The Go relation `<=` on strings. -/
def strLeP (a b : String) : Prop := lexLeChars a.data b.data = true

instance : DecidableRel strLeP := fun a b => by
  unfold strLeP; infer_instance

/-- Model of `sort.Strings`: sort ascending in the Go string order.
Strings
that compare equal in this order are equal, so the result list is the
unique ascending reordering and any correct sort implementation
produces it. -/
def sortStrings (l : List String) : List String :=
  l.insertionSort strLeP

/-- Model of `printUpdate`: swap the hit map for an empty one (under the
lock), find the busiest sections in the snapshot, and print either
`no hits to server` (via `Fprintln`, so with a trailing newline) or
the `busiest sections: ...` line. -/
def printUpdate (updateIntervalNs : Nat) (st : LoggerState) : LoggerState × List String :=
  let old := st.sectionHits
  let maxAndActive := busiestFold old
  let msg :=
    if maxAndActive.1 = 0 then "no hits to server\n"
    else "busiest sections: " ++
      String.intercalate ", " (sortStrings maxAndActive.2) ++
      " (" ++ fmt2 (hitsPerSecond maxAndActive.1 updateIntervalNs) ++ " hits per second)\n"
  ({ st with sectionHits := [] }, [msg])

/-! ### `checkHighTraffic` (logger.go lines 169-197)

`time.Now().Format(time.RFC3339)` is an input of the model: the
formatted wall-clock string is passed in as `now`. -/

def triggerMsg (intervalNs total : Nat) (now : String) : String :=
  "WARNING: high traffic of " ++ fmt2 (hitsPerSecond total intervalNs) ++
    " hits per second, triggered at " ++ now ++ "\n"

def resolveMsg (now : String) : String :=
  "WARNING: high traffic condition resolved at " ++ now ++ "\n"

def checkHighTraffic (intervalNs threshold : Nat) (now : String) (st : LoggerState) :
    LoggerState × List String :=
  let step1 :=
    if threshold < st.totalTraffic ∧ st.isHighTrafficTriggered = false then
      ({ st with isHighTrafficTriggered := true },
       [triggerMsg intervalNs st.totalTraffic now])
    else (st, [])
  let st1 := step1.1
  let step2 :=
    if st1.totalTraffic ≤ threshold ∧ st1.isHighTrafficTriggered = true then
      ({ st1 with isHighTrafficTriggered := false }, [resolveMsg now])
    else (st1, [])
  ({ step2.1 with totalTraffic := 0 }, step1.2 ++ step2.2)

/-! ### The `watch` scheduler (logger.go lines 105-127) -/

structure Config where
  UpdateInterval : Nat
  HighTrafficInterval : Nat
  HighTrafficThreshold : Nat
  deriving Repr, DecidableEq

/-- A tick delivered on one of the two ticker channels; a
high-traffic tick carries the wall-clock string it would print. -/
inductive WatchEvent
  | update
  | highTraffic (now : String)
  deriving Repr, DecidableEq

/-- Since `time.Tick(0)` returns a `nil` channel and a `select` never
fires on a `nil` channel, so a tick can only ever be delivered when
the corresponding interval is nonzero. -/
def eventFires (c : Config) : WatchEvent → Bool
  | .update => c.UpdateInterval != 0
  | .highTraffic _ => c.HighTrafficInterval != 0

def watchStep (c : Config) (st : LoggerState) (e : WatchEvent) : LoggerState × List String :=
  if eventFires c e then
    match e with
    | .update => printUpdate c.UpdateInterval st
    | .highTraffic now => checkHighTraffic c.HighTrafficInterval c.HighTrafficThreshold now st
  else (st, [])

/-- The watcher goroutine over an arbitrary finite schedule of tick
deliveries. -/
def watchRun (c : Config) (st : LoggerState) : List WatchEvent → LoggerState × List String
  | [] => (st, [])
  | e :: es =>
    let r1 := watchStep c st e
    let r2 := watchRun c r1.1 es
    (r2.1, r1.2 ++ r2.2)

/-! ### Lock discipline (claim C10)

A static trace of the shared-state accesses each function performs,
in program order, with the fact of whether the `sectionHitsLock`
mutex is held at that point.  Read off the function bodies:
the loop of `Run` (lines 64-67), `printUpdate` (lines 132-135) and
`checkHighTraffic` (lines 169-197). -/

inductive SharedField
  | sectionHits
  | totalTraffic
  | highTrafficFlag
  deriving Repr, DecidableEq

structure SharedAccess where
  field : SharedField
  isWrite : Bool
  underLock : Bool
  deriving Repr, DecidableEq

/-- The ingestion loop of `Run`: `logger.totalTraffic++` (line 64) happens
before `sectionHitsLock.Lock()` (line 65); only the
`logger.sectionHits[...]++` update (line 66) is inside the
Lock/Unlock pair. -/
def runIngestAccesses : List SharedAccess :=
  [{ field := .totalTraffic, isWrite := true, underLock := false },
   { field := .sectionHits, isWrite := true, underLock := true }]

/-- In `printUpdate`, the snapshot read (line 133) and the reset write
(line 134) are both between `Lock()` and `Unlock()`. -/
def printUpdateAccesses : List SharedAccess :=
  [{ field := .sectionHits, isWrite := false, underLock := true },
   { field := .sectionHits, isWrite := true, underLock := true }]

/-- The function `checkHighTraffic` never takes the lock: it reads `totalTraffic`
(lines 170, 185), reads and writes `isHighTrafficTriggered`
(lines 171, 182, 186, 193) and writes `totalTraffic = 0` (line 196)
with no locking. -/
def checkHighTrafficAccesses : List SharedAccess :=
  [{ field := .totalTraffic, isWrite := false, underLock := false },
   { field := .highTrafficFlag, isWrite := false, underLock := false },
   { field := .highTrafficFlag, isWrite := true, underLock := false },
   { field := .totalTraffic, isWrite := true, underLock := false }]

def allSharedAccesses : List SharedAccess :=
  runIngestAccesses ++ printUpdateAccesses ++ checkHighTrafficAccesses

/-! ### Spec-side definitions (for refinement-style claims) -/

/-- Spec-side reading of amended claim C3, on character lists: the
first slash-delimited path segment, including the leading slash when
present. -/
def specFirstSegmentL : List Char → List Char
  | [] => []
  | c :: rest =>
    if c = '/' then '/' :: rest.takeWhile (fun c2 => !(c2 = '/'))
    else (c :: rest).takeWhile (fun c2 => !(c2 = '/'))

/-- Spec-side reading of amended claim C3: the first slash-delimited
path segment of the resource, including the leading slash when the
resource starts with one. -/
def specFirstSegment (r : String) : String :=
  String.mk (specFirstSegmentL r.data)

/-- The maximum hit count of a snapshot (spec: "finds the maximum hit
count across the snapshot"). -/
def maxHitsOf (l : List (String × Nat)) : Nat :=
  l.foldr (fun p r => max p.2 r) 0

/-- Every section whose count equals the maximum (spec: "collects
every section whose count equals the maximum"). -/
def tiedSections (l : List (String × Nat)) : List String :=
  (l.filter (fun p => p.2 = maxHitsOf l)).map Prod.fst

/-! ### Concrete input lines used in the claims -/

def lineMalformedA : String := "oops, not a log line"

def lineMalformedB : String := "GET /section-a/posts"

def lineSectionPosts : String :=
  "238.129.94.11 - - [10/Oct/2000:13:55:36 -0700] \"PUT /section-a/posts HTTP/1.0\" 200 5034"

def lineRootPath : String :=
  "238.129.94.11 - - [10/Oct/2000:13:55:36 -0700] \"GET / HTTP/1.0\" 200 5034"

def lineDashSize : String :=
  "238.129.94.11 - frank [10/Oct/2000:13:55:36 -0700] \"GET /x HTTP/1.0\" 200 -"

def atoiDashErr : String :=
  "strconv.Atoi: parsing " ++ dqs ++ "-" ++ dqs ++ ": invalid syntax"

/-! ### General-purpose helper instances and lemmas -/

def exceptDecEq {ε α : Type} [DecidableEq ε] [DecidableEq α] : DecidableEq (Except ε α)
  | Except.error a, Except.error b =>
    if h : a = b then isTrue (by rw [h]) else isFalse (fun hh => h (Except.error.inj hh))
  | Except.error _, Except.ok _ => isFalse (fun hh => Except.noConfusion hh)
  | Except.ok _, Except.error _ => isFalse (fun hh => Except.noConfusion hh)
  | Except.ok a, Except.ok b =>
    if h : a = b then isTrue (by rw [h]) else isFalse (fun hh => h (Except.ok.inj hh))

instance {ε α : Type} [DecidableEq ε] [DecidableEq α] : DecidableEq (Except ε α) :=
  exceptDecEq

theorem str_append_assoc (a b c : String) : a ++ b ++ c = a ++ (b ++ c) := by
  apply String.ext
  simp only [String.data_append, List.append_assoc]

/-! ## Claims -/

/-- C1: the spec requires a malformed line to leave the counters
unchanged and emit exactly one warning; the code prints the warning
but then still increments `totalTraffic` and dereferences the nil
entry, crashing.  This theorem evaluates the ingestion step at a
malformed line: the outcome is `crashed` with `totalTraffic`
incremented, not a clean continuation with unchanged state. -/
theorem c1_malformed_line_crashes_ingest :
    ingestLine initialState lineMalformedA =
      IngestOutcome.crashed
        { sectionHits := [], totalTraffic := 1, isHighTrafficTriggered := false }
        ["WARNING: could not parse line " ++ sqs ++ lineMalformedA ++ sqs ++ "\n"] := by
  decide

/-- C2: for a line that does not match the Common Log Format pattern,
`parseLineEntry` returns the nil entry (modelled as `Except.error`),
and the ingestion step still reaches the counter update, where
evaluating `entry.Section` dereferences the nil pointer (modelled by
the `crashed` outcome), after having emitted exactly the one
warning. -/
theorem c2_nil_entry_reaches_counter_update :
    parseLineEntry (goTrimSpace lineMalformedB) =
      Except.error ("could not parse line " ++ sqs ++ lineMalformedB ++ sqs) ∧
    ingestLine initialState lineMalformedB =
      IngestOutcome.crashed
        { sectionHits := [], totalTraffic := 1, isHighTrafficTriggered := false }
        ["WARNING: could not parse line " ++ sqs ++ lineMalformedB ++ sqs ++ "\n"] :=
  ⟨by decide, by decide⟩

/-- C3 counterexample: on a valid line with path `/section-a/posts`
the parser yields `Section = "/section-a"` (the leading slash is
kept), not `"section-a"` as the claim states; and a line with path
exactly `/` does not yield an empty section but fails the pattern
match outright. -/
theorem c3_counterexample :
    (parseLineEntry lineSectionPosts).map (fun e => e.Section) = Except.ok "/section-a" ∧
    (parseLineEntry lineSectionPosts).map (fun e => e.Section) ≠ Except.ok "section-a" ∧
    parseLineEntry lineRootPath =
      Except.error ("could not parse line " ++ sqs ++ lineRootPath ++ sqs) :=
  ⟨by decide, by decide, by decide⟩

/-- C4 counterexample: on a valid Common Log Format line whose size
field is the literal dash, `parseLineEntry` does not succeed with
`Size = 0`; it fails with the `strconv.Atoi` invalid-syntax error
(`strconv.Atoi("-")` is a parse error). -/
theorem c4_counterexample :
    parseLineEntry lineDashSize = Except.error atoiDashErr ∧
    ¬ ∃ e : CommonLogEntry, parseLineEntry lineDashSize = Except.ok e ∧ e.Size = 0 := by
  refine ⟨by decide, ?_⟩
  rintro ⟨e, he, -⟩
  have h1 : parseLineEntry lineDashSize = Except.error atoiDashErr := by decide
  rw [h1] at he
  exact Except.noConfusion he

/-- C4 amended: for every line that matches the Common Log Format
pattern with size field `-`, `parseLineEntry` fails with an error
(the dash is fed to `strconv.Atoi`, which rejects it); the entry is
never surfaced with `Size = 0`. -/
theorem c4_dash_size_is_parse_error (line : String) (m : CLFMatches)
    (h : clfMatch line = some m) (hsize : m.size = "-") :
    ∃ msg, parseLineEntry line = Except.error msg := by
  simp only [parseLineEntry, h]
  cases hT : parseCLFTime m.timestamp with
  | error e => simp only [hT]; exact ⟨e, rfl⟩
  | ok t =>
    simp only [hT]
    cases hS : goAtoi m.status with
    | error e => simp only [hS]; exact ⟨e, rfl⟩
    | ok s =>
      simp only [hS, hsize]
      exact ⟨atoiDashErr, rfl⟩

theorem c4_dash_size_is_parse_error_witness :
    ∃ msg, parseLineEntry lineDashSize = Except.error msg :=
  c4_dash_size_is_parse_error lineDashSize
    { clientIP := "238.129.94.11", userID := "frank",
      timestamp := "10/Oct/2000:13:55:36 -0700", method := "GET",
      resource := "/x", sectionMatch := "/x", status := "200", size := "-" }
    (by decide) (by decide)

/-- C9: `printUpdate` always leaves `sectionHits` empty, and a second
`printUpdate` with no intervening ingestion reports exactly
`no hits to server`. -/
theorem c9_reset_idempotent (ivl : Nat) (st : LoggerState) :
    (printUpdate ivl st).1.sectionHits = [] ∧
    (printUpdate ivl (printUpdate ivl st).1).2 = ["no hits to server\n"] :=
  ⟨rfl, rfl⟩

/-- C10 counterexample: the claim that every shared-state access of
the ingestion path and the two report operations happens under the
mutex is false: the access trace read off the function bodies
contains unlocked accesses. -/
theorem c10_counterexample :
    (allSharedAccesses.all fun a => a.underLock) = false := by
  decide

/-- C10 amended: only the `sectionHits` map is protected by the
mutex.  Every `sectionHits` access in every trace is under the lock,
but the ingestion path increments `totalTraffic` outside the lock,
and `checkHighTraffic` performs all of its accesses (running total
and flag) with no locking at all. -/
theorem c10_lock_discipline :
    (allSharedAccesses.all fun a =>
      !(a.field == SharedField.sectionHits) || a.underLock) = true ∧
    (runIngestAccesses.any fun a =>
      (a.field == SharedField.totalTraffic) && a.isWrite && !a.underLock) = true ∧
    (checkHighTrafficAccesses.all fun a => !a.underLock) = true :=
  ⟨by decide, by decide, by decide⟩

/-- C8 counterexample: when the size sub-field fails after the
pattern matched, the warning emitted is `WARNING: <strconv error>\n`,
and that error message does not contain the offending line text
(it only names the offending field `-`). -/
theorem c8_counterexample :
    outputOf (ingestLine initialState lineDashSize) =
      ["WARNING: " ++ atoiDashErr ++ "\n"] ∧
    ¬ ∃ p s, atoiDashErr = p ++ lineDashSize ++ s := by
  refine ⟨by decide, ?_⟩
  rintro ⟨p, s, h⟩
  have hlen := congrArg String.length h
  rw [String.length_append, String.length_append] at hlen
  have h1 : atoiDashErr.length = 41 := by decide
  have h2 : lineDashSize.length = 74 := by decide
  omega

/-- C8 amended: a line that fails the overall pattern produces the
error `could not parse line '<line>'`, which does contain the
offending line, and every parse failure is reported to the sink as
`WARNING: <error message>\n`; but sub-field failures (see the
counterexample) name only the offending field text. -/
theorem c8_warning_format :
    (∀ line : String, clfMatch line = none →
      parseLineEntry line = Except.error ("could not parse line " ++ sqs ++ line ++ sqs) ∧
      ∃ p s, ("could not parse line " ++ sqs ++ line ++ sqs) = p ++ line ++ s) ∧
    (∀ (st : LoggerState) (raw e : String),
      parseLineEntry (goTrimSpace raw) = Except.error e →
      outputOf (ingestLine st raw) = ["WARNING: " ++ e ++ "\n"]) := by
  constructor
  · intro line h
    refine ⟨?_, "could not parse line " ++ sqs, sqs, rfl⟩
    unfold parseLineEntry
    rw [h]
  · intro st raw e h
    simp only [ingestLine]
    rw [h]
    rfl

theorem c8_warning_format_witness :
    (parseLineEntry "zzz" =
        Except.error ("could not parse line " ++ sqs ++ "zzz" ++ sqs) ∧
      ∃ p s, ("could not parse line " ++ sqs ++ "zzz" ++ sqs) = p ++ "zzz" ++ s) ∧
    outputOf (ingestLine initialState lineMalformedA) =
      ["WARNING: " ++ ("could not parse line " ++ sqs ++ lineMalformedA ++ sqs) ++ "\n"] :=
  ⟨c8_warning_format.1 "zzz" (by decide),
   c8_warning_format.2 initialState lineMalformedA
     ("could not parse line " ++ sqs ++ lineMalformedA ++ sqs) (by decide)⟩

/-- C5: one call to `checkHighTraffic` is the two-state machine of
the spec: `Normal → Triggered` on total > threshold with exactly one
trigger warning, `Triggered → Normal` on total ≤ threshold with
exactly one resolution warning, and no output when the state does not
change — in particular a total exactly equal to the threshold with
the flag clear emits nothing. -/
theorem c5_high_traffic_state_machine (ivl thr : Nat) (now : String) (st : LoggerState) :
    (thr < st.totalTraffic → st.isHighTrafficTriggered = false →
      (checkHighTraffic ivl thr now st).2 = [triggerMsg ivl st.totalTraffic now] ∧
      (checkHighTraffic ivl thr now st).1.isHighTrafficTriggered = true) ∧
    (st.totalTraffic ≤ thr → st.isHighTrafficTriggered = true →
      (checkHighTraffic ivl thr now st).2 = [resolveMsg now] ∧
      (checkHighTraffic ivl thr now st).1.isHighTrafficTriggered = false) ∧
    (thr < st.totalTraffic → st.isHighTrafficTriggered = true →
      (checkHighTraffic ivl thr now st).2 = []) ∧
    (st.totalTraffic ≤ thr → st.isHighTrafficTriggered = false →
      (checkHighTraffic ivl thr now st).2 = []) := by
  refine ⟨fun h1 h2 => ?_, fun h1 h2 => ?_, fun h1 h2 => ?_, fun h1 h2 => ?_⟩
  · constructor <;> simp [checkHighTraffic, h1, h2, Nat.not_le.mpr h1]
  · constructor <;> simp [checkHighTraffic, h1, h2, Nat.not_lt.mpr h1]
  · simp [checkHighTraffic, h2, Nat.not_le.mpr h1]
  · simp [checkHighTraffic, h2, Nat.not_lt.mpr h1]

theorem c5_witness :
    ((checkHighTraffic 1000000000 10 "T" ⟨[], 11, false⟩).2 =
        [triggerMsg 1000000000 11 "T"] ∧
      (checkHighTraffic 1000000000 10 "T" ⟨[], 11, false⟩).1.isHighTrafficTriggered = true) ∧
    ((checkHighTraffic 1000000000 10 "T" ⟨[], 10, true⟩).2 = [resolveMsg "T"] ∧
      (checkHighTraffic 1000000000 10 "T" ⟨[], 10, true⟩).1.isHighTrafficTriggered = false) ∧
    (checkHighTraffic 1000000000 10 "T" ⟨[], 11, true⟩).2 = [] ∧
    (checkHighTraffic 1000000000 10 "T" ⟨[], 10, false⟩).2 = [] :=
  ⟨(c5_high_traffic_state_machine 1000000000 10 "T" ⟨[], 11, false⟩).1 (by decide) rfl,
   (c5_high_traffic_state_machine 1000000000 10 "T" ⟨[], 10, true⟩).2.1 (by decide) rfl,
   (c5_high_traffic_state_machine 1000000000 10 "T" ⟨[], 11, true⟩).2.2.1 (by decide) rfl,
   (c5_high_traffic_state_machine 1000000000 10 "T" ⟨[], 10, false⟩).2.2.2 (by decide) rfl⟩

/-! ### Message shapes, for claim C6 -/

/-- A high-traffic warning: starts with `WARNING: `. -/
def IsWarnMsg (m : String) : Prop := ∃ r, m = "WARNING: " ++ r

/-- A status-update report: `no hits to server` or a
`busiest sections: ` line. -/
def IsUpdateMsg (m : String) : Prop :=
  m = "no hits to server\n" ∨ ∃ r, m = "busiest sections: " ++ r

theorem triggerMsg_isWarn (ivl t : Nat) (now : String) : IsWarnMsg (triggerMsg ivl t now) := by
  refine ⟨"high traffic of " ++ fmt2 (hitsPerSecond t ivl) ++
    " hits per second, triggered at " ++ now ++ "\n", ?_⟩
  unfold triggerMsg
  rw [show ("WARNING: high traffic of " : String) = "WARNING: " ++ "high traffic of " from by decide]
  simp only [str_append_assoc]

theorem resolveMsg_isWarn (now : String) : IsWarnMsg (resolveMsg now) := by
  refine ⟨"high traffic condition resolved at " ++ now ++ "\n", ?_⟩
  unfold resolveMsg
  rw [show ("WARNING: high traffic condition resolved at " : String) =
    "WARNING: " ++ "high traffic condition resolved at " from by decide]
  simp only [str_append_assoc]

theorem warn_not_update {m : String} (h : IsWarnMsg m) : ¬ IsUpdateMsg m := by
  obtain ⟨r, rfl⟩ := h
  rintro (h2 | ⟨r2, h2⟩)
  · have hW : ("WARNING: " ++ r).front = 'W' := rfl
    rw [h2] at hW
    exact absurd hW (by decide)
  · have hW : ("WARNING: " ++ r).front = 'W' := rfl
    have hB : ("busiest sections: " ++ r2).front = 'b' := rfl
    rw [h2, hB] at hW
    exact absurd hW (by decide)

theorem update_not_warn {m : String} (h : IsUpdateMsg m) : ¬ IsWarnMsg m := by
  rintro ⟨r, rfl⟩
  exact warn_not_update ⟨r, rfl⟩ h

/-- Every message `checkHighTraffic` emits is a trigger or a
resolution warning. -/
theorem checkHighTraffic_msgs (ivl thr : Nat) (now : String) (st : LoggerState) :
    ∀ msg ∈ (checkHighTraffic ivl thr now st).2,
      msg = triggerMsg ivl st.totalTraffic now ∨ msg = resolveMsg now := by
  intro msg hm
  by_cases h1 : thr < st.totalTraffic ∧ st.isHighTrafficTriggered = false
  · simp only [checkHighTraffic, if_pos h1] at hm
    rw [if_neg (fun hc => absurd hc.1 (Nat.not_le.mpr h1.1))] at hm
    simp at hm
    exact Or.inl hm
  · simp only [checkHighTraffic, if_neg h1] at hm
    by_cases h2 : st.totalTraffic ≤ thr ∧ st.isHighTrafficTriggered = true
    · rw [if_pos h2] at hm
      simp at hm
      exact Or.inr hm
    · rw [if_neg h2] at hm
      simp at hm

/-- Every message `printUpdate` emits is a status-update report. -/
theorem printUpdate_msgs (ivl : Nat) (st : LoggerState) :
    ∀ msg ∈ (printUpdate ivl st).2, IsUpdateMsg msg := by
  intro msg hm
  simp only [printUpdate, List.mem_singleton] at hm
  subst hm
  by_cases h0 : (busiestFold st.sectionHits).1 = 0
  · rw [if_pos h0]
    exact Or.inl rfl
  · rw [if_neg h0]
    refine Or.inr ⟨String.intercalate ", " (sortStrings (busiestFold st.sectionHits).2) ++
      " (" ++ fmt2 (hitsPerSecond (busiestFold st.sectionHits).1 ivl) ++
      " hits per second)\n", ?_⟩
    simp only [str_append_assoc]

/-- C6: a zero interval disables the corresponding report entirely.
With `UpdateInterval = 0`, whatever ticks are delivered and however
much is ingested, every emitted message is a high-traffic warning and
no status update ever appears; with `HighTrafficInterval = 0`, every
emitted message is a status update and no high-traffic warning ever
appears. -/
theorem c6_zero_interval_disables (c : Config) (st : LoggerState) (es : List WatchEvent) :
    (c.UpdateInterval = 0 →
      ∀ msg ∈ (watchRun c st es).2, IsWarnMsg msg ∧ ¬ IsUpdateMsg msg) ∧
    (c.HighTrafficInterval = 0 →
      ∀ msg ∈ (watchRun c st es).2, IsUpdateMsg msg ∧ ¬ IsWarnMsg msg) := by
  induction es generalizing st with
  | nil =>
    constructor <;> intro h msg hm <;> simp [watchRun] at hm
  | cons e t ih =>
    constructor <;> intro h0 msg hm
    · rw [watchRun] at hm
      rcases List.mem_append.mp hm with h1 | h1
      · cases e with
        | update => simp [watchStep, eventFires, h0] at h1
        | highTraffic now =>
          by_cases hf : eventFires c (WatchEvent.highTraffic now) = true
          · rw [watchStep, if_pos hf] at h1
            rcases checkHighTraffic_msgs c.HighTrafficInterval c.HighTrafficThreshold now st msg h1 with
              h2 | h2
            · subst h2
              exact ⟨triggerMsg_isWarn _ _ _, warn_not_update (triggerMsg_isWarn _ _ _)⟩
            · subst h2
              exact ⟨resolveMsg_isWarn _, warn_not_update (resolveMsg_isWarn _)⟩
          · rw [watchStep, if_neg hf] at h1
            simp at h1
      · exact (ih _).1 h0 msg h1
    · rw [watchRun] at hm
      rcases List.mem_append.mp hm with h1 | h1
      · cases e with
        | highTraffic now => simp [watchStep, eventFires, h0] at h1
        | update =>
          by_cases hf : eventFires c WatchEvent.update = true
          · rw [watchStep, if_pos hf] at h1
            have h2 := printUpdate_msgs c.UpdateInterval st msg h1
            exact ⟨h2, update_not_warn h2⟩
          · rw [watchStep, if_neg hf] at h1
            simp at h1
      · exact (ih _).2 h0 msg h1

theorem c6_witness :
    (IsWarnMsg (triggerMsg 1 11 "T") ∧ ¬ IsUpdateMsg (triggerMsg 1 11 "T")) ∧
    (IsUpdateMsg "no hits to server\n" ∧ ¬ IsWarnMsg "no hits to server\n") :=
  ⟨(c6_zero_interval_disables ⟨0, 1, 10⟩ ⟨[], 11, false⟩ [WatchEvent.highTraffic "T"]).1
      rfl (triggerMsg 1 11 "T")
      (by simp [watchRun, watchStep, eventFires, checkHighTraffic]),
   (c6_zero_interval_disables ⟨1, 0, 0⟩ initialState [WatchEvent.update]).2
      rfl "no hits to server\n"
      (by simp [watchRun, watchStep, eventFires, printUpdate, busiestFold, initialState])⟩

/-! ### The busiest-section fold computes max and all tied sections (claim C7) -/

@[simp] theorem maxHitsOf_nil : maxHitsOf [] = 0 := rfl

@[simp] theorem maxHitsOf_cons (s : String) (h : Nat) (t : List (String × Nat)) :
    maxHitsOf ((s, h) :: t) = max h (maxHitsOf t) := rfl

theorem busiestStep_eq (m : Nat) (acc : List String) (s : String) (h : Nat) :
    busiestStep (m, acc) (s, h) =
      if m < h then (h, [s])
      else if h = m then (m, acc ++ [s])
      else (m, acc) := by
  unfold busiestStep
  by_cases h1 : m < h
  · simp [h1]
  · by_cases h2 : h = m
    · subst h2
      simp [Nat.lt_irrefl]
    · simp [h1, h2, Ne.symm h2]

theorem foldl_busiestStep (t : List (String × Nat)) : ∀ (m : Nat) (acc : List String),
    t.foldl busiestStep (m, acc) =
      (max m (maxHitsOf t),
       (if m < max m (maxHitsOf t) then ([] : List String) else acc) ++
         (t.filter (fun p => p.2 = max m (maxHitsOf t))).map Prod.fst) := by
  induction t with
  | nil =>
    intro m acc
    simp
  | cons p t ih =>
    intro m acc
    obtain ⟨s, h⟩ := p
    rw [List.foldl_cons, busiestStep_eq]
    simp only [maxHitsOf_cons]
    rcases Nat.lt_trichotomy m h with h1 | h1 | h1
    · rw [if_pos h1, ih]
      have e1 : max m (max h (maxHitsOf t)) = max h (maxHitsOf t) := by omega
      have e2 : m < max h (maxHitsOf t) := by omega
      simp only [e1, List.filter_cons]
      rw [if_pos e2]
      by_cases h2 : maxHitsOf t ≤ h
      · have e3 : max h (maxHitsOf t) = h := by omega
        simp only [e3]
        simp
      · have e4 : h < maxHitsOf t := by omega
        have e3 : max h (maxHitsOf t) = maxHitsOf t := by omega
        simp only [e3]
        simp [e4, Nat.ne_of_lt e4]
    · subst h1
      rw [if_neg (Nat.lt_irrefl m), if_pos rfl, ih, List.filter_cons]
      by_cases h2 : maxHitsOf t ≤ m
      · have e1 : max m (maxHitsOf t) = m := by omega
        simp only [e1, Nat.max_self]
        simp [Nat.lt_irrefl, List.append_assoc]
      · have e4 : m < maxHitsOf t := by omega
        have e1 : max m (maxHitsOf t) = maxHitsOf t := by omega
        simp only [e1]
        simp [e4, Nat.ne_of_lt e4]
    · rw [if_neg (by omega : ¬ m < h), if_neg (by omega : ¬ h = m), ih, List.filter_cons]
      have e1 : max m (max h (maxHitsOf t)) = max m (maxHitsOf t) := by omega
      simp only [e1]
      simp [show ¬ (h = max m (maxHitsOf t)) from by omega]

/-- The loop of `printUpdate` computes exactly the maximum hit count
and, in iteration order, every section whose count equals it. -/
theorem busiestFold_spec (l : List (String × Nat)) :
    busiestFold l = (maxHitsOf l, tiedSections l) := by
  unfold busiestFold tiedSections
  rw [foldl_busiestStep]
  simp

theorem lexLeChars_total : ∀ as bs : List Char,
    lexLeChars as bs = true ∨ lexLeChars bs as = true := by
  intro as
  induction as with
  | nil => intro bs; left; rfl
  | cons a as ih =>
    intro bs
    cases bs with
    | nil => right; rfl
    | cons b bs =>
      by_cases h : a.toNat = b.toNat
      · rcases ih bs with h2 | h2
        · left; simp [lexLeChars, h, h2]
        · right; simp [lexLeChars, h.symm, h2]
      · rcases Nat.lt_or_ge a.toNat b.toNat with h2 | h2
        · left; simp [lexLeChars, h, h2]
        · have h3 : b.toNat < a.toNat := by omega
          have h4 : ¬ b.toNat = a.toNat := by omega
          right
          simp [lexLeChars, h4, h3]

theorem lexLeChars_trans : ∀ as bs cs : List Char,
    lexLeChars as bs = true → lexLeChars bs cs = true → lexLeChars as cs = true := by
  intro as
  induction as with
  | nil => intro bs cs h1 h2; rfl
  | cons a as ih =>
    intro bs cs h1 h2
    cases bs with
    | nil => simp [lexLeChars] at h1
    | cons b bs =>
      cases cs with
      | nil => simp [lexLeChars] at h2
      | cons c cs =>
        simp only [lexLeChars] at h1 h2 ⊢
        by_cases hab : a.toNat = b.toNat
        · by_cases hbc : b.toNat = c.toNat
          · have hac : a.toNat = c.toNat := hab.trans hbc
            rw [if_pos hab] at h1
            rw [if_pos hbc] at h2
            rw [if_pos hac]
            exact ih bs cs h1 h2
          · have hac : ¬ a.toNat = c.toNat := by rw [hab]; exact hbc
            rw [if_pos hab] at h1
            rw [if_neg hbc] at h2
            rw [if_neg hac]
            simp only [decide_eq_true_eq] at h2 ⊢
            omega
        · rw [if_neg hab] at h1
          simp only [decide_eq_true_eq] at h1
          by_cases hbc : b.toNat = c.toNat
          · have hac : ¬ a.toNat = c.toNat := by omega
            rw [if_neg hac]
            simp only [decide_eq_true_eq]
            omega
          · rw [if_neg hbc] at h2
            simp only [decide_eq_true_eq] at h2
            have hac : ¬ a.toNat = c.toNat := by omega
            rw [if_neg hac]
            simp only [decide_eq_true_eq]
            omega

instance : IsTotal String strLeP :=
  ⟨fun a b => lexLeChars_total a.data b.data⟩

instance : IsTrans String strLeP :=
  ⟨fun a b c => lexLeChars_trans a.data b.data c.data⟩

/-- C7: on a snapshot with a positive maximum, `printUpdate` emits a
single `busiest sections` line listing every tied section (all
sections whose count equals the maximum), sorted ascending in the Go
string order, with the rate `max_count * (1 second / UpdateInterval)`
formatted to two decimals. -/
theorem c7_busiest_sections_report (ivl : Nat) (st : LoggerState)
    (hmax : 0 < maxHitsOf st.sectionHits) :
    (printUpdate ivl st).2 =
      ["busiest sections: " ++
        String.intercalate ", " (sortStrings (tiedSections st.sectionHits)) ++
        " (" ++ fmt2 (hitsPerSecond (maxHitsOf st.sectionHits) ivl) ++ " hits per second)\n"] ∧
    List.Sorted strLeP (sortStrings (tiedSections st.sectionHits)) ∧
    (sortStrings (tiedSections st.sectionHits)).Perm (tiedSections st.sectionHits) := by
  refine ⟨?_, List.sorted_insertionSort strLeP _, List.perm_insertionSort strLeP _⟩
  simp only [printUpdate, busiestFold_spec]
  rw [if_neg hmax.ne']

/-- C7 witness: `UpdateInterval = 1s`, two hits on `/section-a` and
one on `/section-b` give exactly the rate `2.00` of the spec. -/
theorem c7_witness :
    (printUpdate 1000000000
      { sectionHits := [("/section-a", 2), ("/section-b", 1)],
        totalTraffic := 0, isHighTrafficTriggered := false }).2 =
      ["busiest sections: /section-a (2.00 hits per second)\n"] := by
  have h := (c7_busiest_sections_report 1000000000
    { sectionHits := [("/section-a", 2), ("/section-b", 1)],
      totalTraffic := 0, isHighTrafficTriggered := false } (by decide)).1
  rw [h]
  decide

/-! ### The section capture is the first path segment (claim C3) -/

theorem takeWhile_append_all {p : Char → Bool} : ∀ (l₁ l₂ : List Char),
    (∀ x ∈ l₁, p x = true) → (l₁ ++ l₂).takeWhile p = l₁ ++ l₂.takeWhile p := by
  intro l₁
  induction l₁ with
  | nil => intro l₂ _; rfl
  | cons a t ih =>
    intro l₂ h
    have ha : p a = true := h a (List.mem_cons_self a t)
    rw [List.cons_append, List.takeWhile_cons, if_pos ha,
      ih l₂ (fun x hx => h x (List.mem_cons_of_mem a hx))]
    rfl

theorem takeWhile_cons_head (p : Char → Bool) (l : List Char) {e : Char} {t : List Char}
    (h : l.takeWhile p = e :: t) : l.head? = some e := by
  cases l with
  | nil => exact List.noConfusion h
  | cons a l2 =>
    by_cases hp : p a
    · rw [List.takeWhile_cons, if_pos hp] at h
      have h1 : a = e := by injection h
      rw [h1]
      rfl
    · rw [List.takeWhile_cons, if_neg hp] at h
      exact List.noConfusion h

theorem dropWhile_head_not (p : Char → Bool) : ∀ (l : List Char) {e : Char},
    (l.dropWhile p).head? = some e → p e = false := by
  intro l
  induction l with
  | nil => intro e h; exact Option.noConfusion h
  | cons a l2 ih =>
    intro e h
    by_cases hp : p a
    · rw [List.dropWhile_cons, if_pos hp] at h
      exact ih h
    · rw [List.dropWhile_cons, if_neg hp] at h
      have h1 : a = e := by injection h
      subst h1
      simpa using hp

/-- After the section segment, the resource extension is empty or
starts with a slash, so a slash-bounded `takeWhile` over it is
empty. -/
theorem ext_takeWhile_slash_nil (y : List Char) :
    ((y.dropWhile segChar).takeWhile extChar).takeWhile (fun c2 => !(c2 = '/')) = [] := by
  cases hE : (y.dropWhile segChar).takeWhile extChar with
  | nil => rfl
  | cons e et =>
    have he_mem : e ∈ (y.dropWhile segChar).takeWhile extChar := by
      rw [hE]; exact List.mem_cons_self e et
    have he_ext : extChar e = true := List.mem_takeWhile_imp he_mem
    have hhead : (y.dropWhile segChar).head? = some e := takeWhile_cons_head _ _ hE
    have hseg : segChar e = false := dropWhile_head_not _ _ hhead
    have he : e = '/' := by
      simp [segChar] at hseg
      simp [extChar] at he_ext
      tauto
    subst he
    rw [List.takeWhile_cons]
    simp

/-- The segment consumed by `[^/ "]+`, extended by `[^ "]*`, cut at
the first slash, is exactly the segment. -/
theorem segment_take (x : List Char) :
    ((x.takeWhile segChar) ++ ((x.dropWhile segChar).takeWhile extChar)).takeWhile
      (fun c2 => !(c2 = '/')) = x.takeWhile segChar := by
  rw [takeWhile_append_all]
  · rw [ext_takeWhile_slash_nil, List.append_nil]
  · intro c hc
    have := List.mem_takeWhile_imp hc
    simp [segChar] at this
    simp [this.1]

/-- The section capture of the resource group is the first
slash-delimited segment of the resource capture, keeping the leading
slash. -/
theorem resourceGroup_sectionMatch (cs : List Char) :
    (resourceGroup cs).1.1 = specFirstSegmentL (resourceGroup cs).1.2 := by
  cases cs with
  | nil => rfl
  | cons c cs1 =>
    by_cases hc : c = '/'
    · subst hc
      simp only [resourceGroup]
      rw [if_true]
      by_cases hseg : (cs1.takeWhile segChar).isEmpty
      · rw [if_pos hseg]
        rfl
      · rw [if_neg hseg]
        show '/' :: cs1.takeWhile segChar =
          specFirstSegmentL (('/' :: cs1.takeWhile segChar) ++
            (cs1.dropWhile segChar).takeWhile extChar)
        rw [List.cons_append]
        simp only [specFirstSegmentL]
        rw [if_true, segment_take]
    · simp only [resourceGroup, if_neg hc]
      by_cases hseg : ((c :: cs1).takeWhile segChar).isEmpty
      · rw [if_pos hseg]
        rfl
      · rw [if_neg hseg]
        have hc2 : segChar c = true := by
          by_contra hb
          have hb2 : segChar c = false := by simpa using hb
          rw [List.takeWhile_cons, hb2] at hseg
          exact hseg rfl
        show (c :: cs1).takeWhile segChar =
          specFirstSegmentL ((c :: cs1).takeWhile segChar ++
            ((c :: cs1).dropWhile segChar).takeWhile extChar)
        rw [List.dropWhile_cons, if_pos hc2, List.takeWhile_cons, if_pos hc2,
          List.cons_append]
        simp only [specFirstSegmentL, if_neg hc]
        rw [List.takeWhile_cons, if_pos (show (!(c = '/')) = true by simp [hc]),
          segment_take]

/-- C3 amended: for every line accepted by the Common Log Format
pattern, the section capture is the first slash-delimited path
segment of the resource capture INCLUDING the leading slash
(`/section-a/posts` gives section `/section-a`, not `section-a`);
a path of exactly `/` does not match the pattern at all and is a
parse error rather than an empty section (see the counterexample). -/
theorem c3_section_is_first_segment (line : String) (m : CLFMatches)
    (h : clfMatch line = some m) :
    m.sectionMatch = specFirstSegment m.resource := by
  unfold clfMatch at h
  cases hH : clfHead line.data with
  | none =>
    simp only [clfMatchAux, hH] at h
    exact Option.noConfusion h
  | some pr =>
    obtain ⟨⟨clientIP, userID, ts, method⟩, r⟩ := pr
    simp only [clfMatchAux, hH] at h
    rcases hR : resourceGroup r with ⟨⟨sec, res⟩, r2⟩
    simp only [hR] at h
    cases hT : clfTail r2 with
    | none =>
      simp only [hT] at h
      exact Option.noConfusion h
    | some pr2 =>
      obtain ⟨status, size⟩ := pr2
      simp only [hT] at h
      have h3 := Option.some.inj h
      subst h3
      have h5 : sec = specFirstSegmentL res := by
        have h4 := resourceGroup_sectionMatch r
        rw [hR] at h4
        exact h4
      exact congrArg String.mk h5

theorem c3_section_is_first_segment_witness :
    ("/section-a" : String) = specFirstSegment "/section-a/posts" :=
  c3_section_is_first_segment lineSectionPosts
    { clientIP := "238.129.94.11", userID := "-",
      timestamp := "10/Oct/2000:13:55:36 -0700", method := "PUT",
      resource := "/section-a/posts", sectionMatch := "/section-a",
      status := "200", size := "5034" }
    (by decide)

end HttpLogger
